import Mathlib

/-!
Verification of the crypto trading engine core subsystems against the
design specification.  The Go sources are shallowly embedded: fixed-point
decimal arithmetic (shopspring/decimal) is modelled by `ℚ`, timestamps by
Unix seconds (`Nat`), database tables by lists of rows, and the NATS bus by
a list of published events.  Stateful managers become pure state-passing
functions.  Floating-point number rendering used only inside log/reason
strings (Go fmt verbs) is modelled by deterministic decimal renderers.
-/

/-! ## Number rendering (models Go fmt verbs on the values that occur) -/

/-- Round a rational to the nearest integer, ties to even (Go strconv
rounding used by the %f verb). -/
def roundHalfEven (q : ℚ) : ℤ :=
  let n : ℤ := Int.floor q
  let frac : ℚ := q - (n : ℚ)
  if frac < (1 : ℚ) / 2 then n
  else if frac > (1 : ℚ) / 2 then n + 1
  else if n % 2 = 0 then n else n + 1

/-- Left-pad a decimal digit string with zeros to a given width. -/
def padZeros (w : Nat) (s : String) : String :=
  String.mk (List.replicate (w - s.length) '0') ++ s

/-- Fixed-point decimal rendering with `d` fractional digits: the model of
the Go formatting verb %.df of a float64 (exact on the values that arise). -/
def fmtFixed (d : Nat) (q : ℚ) : String :=
  let scaled : ℤ := roundHalfEven (q * ((10 : ℚ) ^ d))
  let sign := if scaled < 0 then "-" else ""
  let m : Nat := scaled.natAbs
  if d = 0 then sign ++ toString m
  else sign ++ toString (m / 10 ^ d) ++ "." ++ padZeros d (toString (m % 10 ^ d))

/-- Model of the Go default (%v) rendering of a float64 value. -/
def fmtValue (q : ℚ) : String :=
  if q.den = 1 then toString q.num else fmtFixed 6 q

/-- Model of the Go rendering of a `time.Duration` that is a whole number of
seconds (as produced for hold durations). -/
def fmtDuration (secs : Nat) : String :=
  if secs ≥ 3600 then
    toString (secs / 3600) ++ "h" ++ toString (secs % 3600 / 60) ++ "m" ++
      toString (secs % 60) ++ "s"
  else if secs ≥ 60 then
    toString (secs / 60) ++ "m" ++ toString (secs % 60) ++ "s"
  else
    toString secs ++ "s"

/-! ## SHA-256 (crypto/sha256), over byte lists

Bytes are `Nat` values below 256; 32-bit machine words are `Nat` with
explicit reduction modulo `2^32`. -/

def pow32 : Nat := 4294967296

/-- Right rotation of a 32-bit word. -/
def rotr32 (n x : Nat) : Nat := ((x >>> n) ||| ((x <<< (32 - n)) % pow32))

def smallSigma0 (x : Nat) : Nat := (rotr32 7 x) ^^^ (rotr32 18 x) ^^^ (x >>> 3)

def smallSigma1 (x : Nat) : Nat := (rotr32 17 x) ^^^ (rotr32 19 x) ^^^ (x >>> 10)

def bigSigma0 (x : Nat) : Nat := (rotr32 2 x) ^^^ (rotr32 13 x) ^^^ (rotr32 22 x)

def bigSigma1 (x : Nat) : Nat := (rotr32 6 x) ^^^ (rotr32 11 x) ^^^ (rotr32 25 x)

/-- The SHA-256 round constants. -/
def sha256K : List Nat :=
  [1116352408, 1899447441, 3049323471, 3921009573, 961987163,
   1508970993, 2453635748, 2870763221, 3624381080, 310598401,
   607225278, 1426881987, 1925078388, 2162078206, 2614888103,
   3248222580, 3835390401, 4022224774, 264347078, 604807628,
   770255983, 1249150122, 1555081692, 1996064986, 2554220882,
   2821834349, 2952996808, 3210313671, 3336571891, 3584528711,
   113926993, 338241895, 666307205, 773529912, 1294757372,
   1396182291, 1695183700, 1986661051, 2177026350, 2456956037,
   2730485921, 2820302411, 3259730800, 3345764771, 3516065817,
   3600352804, 4094571909, 275423344, 430227734, 506948616,
   659060556, 883997877, 958139571, 1322822218, 1537002063,
   1747873779, 1955562222, 2024104815, 2227730452, 2361852424,
   2428436474, 2756734187, 3204031479, 3329325298]

/-- The eight 32-bit words of SHA-256 working state. -/
structure Sha256S where
  a : Nat
  b : Nat
  c : Nat
  d : Nat
  e : Nat
  f : Nat
  g : Nat
  hh : Nat
deriving DecidableEq

def sha256Init : Sha256S :=
  ⟨1779033703, 3144134277, 1013904242, 2773480762,
   1359893119, 2600822924, 528734635, 1541459225⟩

/-- Big-endian 32-bit words from bytes, four at a time. -/
def bytesToWords : List Nat → List Nat
  | b0 :: b1 :: b2 :: b3 :: rest =>
      (b0 * 16777216 + b1 * 65536 + b2 * 256 + b3) :: bytesToWords rest
  | _ => []

/-- Extend the 16 block words to the 64-entry message schedule. -/
def sha256Schedule (w : List Nat) : List Nat :=
  (List.range 48).foldl
    (fun acc _ =>
      let i := acc.length
      let w16 := acc.getD (i - 16) 0
      let w15 := acc.getD (i - 15) 0
      let w7 := acc.getD (i - 7) 0
      let w2 := acc.getD (i - 2) 0
      acc ++ [(w16 + smallSigma0 w15 + w7 + smallSigma1 w2) % pow32])
    w

/-- One SHA-256 compression round on the working state, fed a schedule word
paired with its round constant. -/
def sha256Round (s : Sha256S) (wk : Nat × Nat) : Sha256S :=
  let ch := (s.e &&& s.f) ^^^ ((4294967295 ^^^ s.e) &&& s.g)
  let t1 := (s.hh + bigSigma1 s.e + ch + wk.2 + wk.1) % pow32
  let maj := (s.a &&& s.b) ^^^ (s.a &&& s.c) ^^^ (s.b &&& s.c)
  let t2 := (bigSigma0 s.a + maj) % pow32
  ⟨(t1 + t2) % pow32, s.a, s.b, s.c, (s.d + t1) % pow32, s.e, s.f, s.g⟩

/-- Process one padded 64-byte block. -/
def sha256Block (hst : Sha256S) (block : List Nat) : Sha256S :=
  let w := sha256Schedule (bytesToWords block)
  let s := (w.zip sha256K).foldl sha256Round hst
  ⟨(hst.a + s.a) % pow32, (hst.b + s.b) % pow32, (hst.c + s.c) % pow32,
   (hst.d + s.d) % pow32, (hst.e + s.e) % pow32, (hst.f + s.f) % pow32,
   (hst.g + s.g) % pow32, (hst.hh + s.hh) % pow32⟩

/-- Big-endian 8-byte encoding of the bit length. -/
def beBytes8 (n : Nat) : List Nat :=
  [n / 72057594037927936 % 256, n / 281474976710656 % 256,
   n / 1099511627776 % 256, n / 4294967296 % 256,
   n / 16777216 % 256, n / 65536 % 256, n / 256 % 256, n % 256]

/-- SHA-256 padding: a 0x80 byte, zeros to 56 mod 64, then the bit length. -/
def sha256Pad (msg : List Nat) : List Nat :=
  let l := msg.length
  let z := (119 - (l % 64)) % 64
  msg ++ [128] ++ List.replicate z 0 ++ beBytes8 (l * 8)

/-- Split into 64-byte chunks. -/
def chunks64 (l : List Nat) : List (List Nat) :=
  if h : l = [] then []
  else
    (l.take 64) :: chunks64 (l.drop 64)
termination_by l.length
decreasing_by
  simp only [List.length_drop]
  exact Nat.sub_lt (List.length_pos.mpr h) (by norm_num)

/-- Big-endian bytes of one 32-bit word. -/
def wordBytes (w : Nat) : List Nat :=
  [w / 16777216 % 256, w / 65536 % 256, w / 256 % 256, w % 256]

/-- The SHA-256 digest (32 bytes) of a byte list. -/
def sha256 (msg : List Nat) : List Nat :=
  let s := (chunks64 (sha256Pad msg)).foldl sha256Block sha256Init
  wordBytes s.a ++ wordBytes s.b ++ wordBytes s.c ++ wordBytes s.d ++
    wordBytes s.e ++ wordBytes s.f ++ wordBytes s.g ++ wordBytes s.hh

/-! ## Hex encoding and UTF-8 bytes -/

def hexDigit (n : Nat) : Char :=
  if n < 10 then Char.ofNat (48 + n) else Char.ofNat (87 + n)

def hexPair (b : Nat) : List Char := [hexDigit (b / 16), hexDigit (b % 16)]

/-- Lowercase hex characters of a byte list (encoding/hex). -/
def hexChars (bs : List Nat) : List Char := (bs.map hexPair).flatten

/-- UTF-8 bytes of one character. -/
def utf8Char (c : Char) : List Nat :=
  let n := c.toNat
  if n < 128 then [n]
  else if n < 2048 then [192 + n / 64, 128 + n % 64]
  else if n < 65536 then [224 + n / 4096, 128 + n / 64 % 64, 128 + n % 64]
  else [240 + n / 262144, 128 + n / 4096 % 64, 128 + n / 64 % 64, 128 + n % 64]

/-- UTF-8 bytes of a string, as in the Go conversion to a byte slice. -/
def utf8Bytes (s : String) : List Nat := (s.data.map utf8Char).flatten

/-! ## Data model (§3): rows as records, decimals as `ℚ`, times as seconds -/

def nilUuid : String := "00000000-0000-0000-0000-000000000000"

/-- A `strategy.signal` bus event (events.TradeSignalEvent).  The
`Indicators` float map is flattened into the keys the system reads; an
absent key reads as the zero value. -/
structure TradeSignalEvent where
  id : String
  strategyId : String
  symbol : String
  side : String
  otype : String
  quantity : ℚ
  price : Option ℚ
  stopLossPrice : ℚ
  reason : String
  indicatorsPrice : ℚ
  indicatorsSma : ℚ
  indicatorsRsi : ℚ
  indicatorsUpperBB : ℚ
  indicatorsLowerBB : ℚ
deriving DecidableEq

/-- models.TradeSignal as consumed by risk validation. -/
structure TradeSignal where
  strategyId : String
  symbol : String
  side : String
  quantity : ℚ
  stopLossPrice : ℚ
  indicatorsPrice : ℚ
deriving DecidableEq

/-- One row of the `orders` table. -/
structure Order where
  oid : Nat
  clientOrderId : String
  strategyId : String
  symbol : String
  side : String
  otype : String
  quantity : ℚ
  price : Option ℚ
  stopLossPrice : Option ℚ
  status : String
  filledQuantity : ℚ
  averageFillPrice : ℚ
  fees : ℚ
deriving DecidableEq

/-- One row of the `trades` table. -/
structure Trade where
  tid : Nat
  entryOrderId : Nat
  exitOrderId : Option Nat
  strategyId : String
  symbol : String
  side : String
  entryPrice : ℚ
  quantity : ℚ
  entryTime : Nat
  exitTime : Option Nat
  exitPrice : Option ℚ
  pnl : Option ℚ
  pnlPercent : Option ℚ
  feesTotal : Option ℚ
  holdDuration : Option Nat
  exitReason : Option String
deriving DecidableEq

/-- One row of the `risk_events` table. -/
structure RiskEvent where
  strategyId : Option String
  eventType : String
  description : String
  actionTaken : String
deriving DecidableEq

/-- One row of the `price_data` table. -/
structure Candle where
  ctime : Nat
  exchange : String
  symbol : String
  interval : String
  openPrice : ℚ
  highPrice : ℚ
  lowPrice : ℚ
  closePrice : ℚ
  volume : ℚ
deriving DecidableEq

/-- One row of the `exchanges` table (only the columns the core reads). -/
structure ExchangeRow where
  eid : String
  isActive : Bool
deriving DecidableEq

/-- The in-memory kill switch of the RiskManager. -/
structure KillSwitchMem where
  enabled : Bool
  reason : String
  timestamp : Nat
deriving DecidableEq

/-- The `system_config.kill_switch` JSON blob. -/
structure KillSwitchConfig where
  enabled : Bool
  reason : Option String
  timestamp : Option Nat
deriving DecidableEq

/-- Events published on the NATS bus (the payload parts claims inspect). -/
inductive PubEvent where
  | signal (s : TradeSignalEvent)
  | killSwitchEv (enabled : Bool) (reason : String)
  | riskViolationEv (strategyId eventType description actionTaken : String)
  | tradeOpenedEv (tradeId : Nat) (side : String) (entryPrice quantity : ℚ)
  | tradeClosedEv (tradeId : Nat) (pnl pnlPercent : ℚ) (exitReason : String)
  | orderPlacedEv (orderId : Nat) (clientOrderId : String)
  | orderFilledEv (orderId : Nat)
deriving DecidableEq

/-- Combined store + bus + manager state for the trading-bot process.
`exchangeCalls` counts dispatches to `Exchange.PlaceOrder` (the async
`executeOrder` goroutine performs exactly one such call per dispatch);
`nextId` is the fresh-row-id supply standing in for `uuid.New()`. -/
structure SysState where
  orders : List Order
  trades : List Trade
  balanceTotals : List ℚ
  riskEvents : List RiskEvent
  exchangesTable : List ExchangeRow
  ksConfig : KillSwitchConfig
  ks : KillSwitchMem
  published : List PubEvent
  exchangeCalls : Nat
  nextId : Nat
deriving DecidableEq

/-- config.RiskConfig. -/
structure RiskConfig where
  maxPositionSizeUSD : ℚ
  maxOpenPositions : Nat
  dailyLossLimitPercent : ℚ
  stopLossPercent : ℚ
  maxHoldTimeHours : Nat
deriving DecidableEq

/-! ## Risk manager (internal/risk) -/

/-- logRiskEvent: insert a `risk_events` row and publish `risk.violation`.
A nil strategy id is stored as NULL and published as the nil UUID string. -/
def logRiskEvent (st : SysState) (strategyId : Option String)
    (eventType description actionTaken : String) : SysState :=
  { st with
    riskEvents := st.riskEvents ++ [⟨strategyId, eventType, description, actionTaken⟩],
    published := st.published ++
      [PubEvent.riskViolationEv (strategyId.getD nilUuid) eventType description actionTaken] }

/-- EnableKillSwitch: set the in-memory switch, persist the config blob,
cancel all PENDING/OPEN orders in one UPDATE, publish `risk.kill_switch`,
and log a KILL_SWITCH risk event. -/
def enableKillSwitch (now : Nat) (reason : String) (st : SysState) : SysState :=
  let st1 := { st with ks := ⟨true, reason, now⟩, ksConfig := ⟨true, some reason, some now⟩ }
  let st2 := { st1 with orders := st1.orders.map (fun (o : Order) =>
      if o.status = "PENDING" ∨ o.status = "OPEN" then { o with status := "CANCELLED" } else o) }
  let st3 := { st2 with published := st2.published ++ [PubEvent.killSwitchEv true reason] }
  logRiskEvent st3 none "KILL_SWITCH" reason "All trading halted"

/-- DisableKillSwitch: clear the in-memory switch (its timestamp is left as
is), persist the config blob, publish `risk.kill_switch`. -/
def disableKillSwitch (now : Nat) (st : SysState) : SysState :=
  { st with ks := ⟨false, "", st.ks.timestamp⟩,
            ksConfig := ⟨false, none, some now⟩,
            published := st.published ++ [PubEvent.killSwitchEv false ""] }

/-- The result of `time.Now().Truncate(24 * time.Hour)` on a Unix timestamp. -/
def startOfDay (now : Nat) : Nat := now - now % 86400

/-- The per-strategy daily P&L: `COALESCE(SUM(pnl), 0)` over trades with
`entry_time >= startOfDay` (SQL SUM skips NULL `pnl`). -/
def dailyPnl (st : SysState) (strategyId : String) (now : Nat) : ℚ :=
  ((st.trades.filter (fun t =>
      decide (t.strategyId = strategyId ∧ t.entryTime ≥ startOfDay now))).map
    (fun t => t.pnl.getD 0)).sum

/-- The sum `COALESCE(SUM(total), 0)` over the balances table.  (The Go code falls
back to 10000 only when this query itself errors; query errors are not
modelled.) -/
def portfolioValue (st : SysState) : ℚ := st.balanceTotals.sum

/-- checkDailyLossLimit: fail (and auto-enable the kill switch) exactly when
the daily P&L is strictly below the negated loss limit. -/
def checkDailyLossLimit (cfg : RiskConfig) (now : Nat) (st : SysState)
    (strategyId : String) : Except String Unit × SysState :=
  let p := dailyPnl st strategyId now
  let lossLimit := portfolioValue st * cfg.dailyLossLimitPercent / 100
  if p < -lossLimit then
    (Except.error ("daily loss limit exceeded: " ++ fmtFixed 2 p ++
        " (limit: " ++ fmtFixed 2 lossLimit ++ ")"),
     enableKillSwitch now ("Daily loss limit exceeded: " ++ fmtFixed 2 p) st)
  else (Except.ok (), st)

/-- Open position count for a strategy: trades with `exit_time IS NULL`. -/
def openPositions (st : SysState) (strategyId : String) : Nat :=
  (st.trades.filter (fun t => decide (t.strategyId = strategyId ∧ t.exitTime = none))).length

/-- checkMaxOpenPositions. -/
def checkMaxOpenPositions (cfg : RiskConfig) (st : SysState)
    (strategyId : String) : Except String Unit :=
  if openPositions st strategyId ≥ cfg.maxOpenPositions then
    Except.error ("max open positions reached: " ++ toString (openPositions st strategyId) ++
      " (limit: " ++ toString cfg.maxOpenPositions ++ ")")
  else Except.ok ()

/-- ValidateTradeSignal: the five risk rules, in source order; rejections
log a risk event. -/
def validateTradeSignal (cfg : RiskConfig) (now : Nat) (st : SysState)
    (sig : TradeSignal) : Except String Unit × SysState :=
  if st.ks.enabled then (Except.error "kill switch is enabled", st)
  else
    match checkDailyLossLimit cfg now st sig.strategyId with
    | (Except.error e, st1) =>
        (Except.error e, logRiskEvent st1 (some sig.strategyId) "DAILY_LOSS_LIMIT" e "Trade rejected")
    | (Except.ok _, st1) =>
        match checkMaxOpenPositions cfg st1 sig.strategyId with
        | Except.error e =>
            (Except.error e, logRiskEvent st1 (some sig.strategyId) "MAX_POSITIONS" e "Trade rejected")
        | Except.ok _ =>
            let positionValue := sig.quantity * sig.indicatorsPrice
            if positionValue > cfg.maxPositionSizeUSD then
              let e := "position size " ++ fmtFixed 2 positionValue ++
                " exceeds limit " ++ fmtFixed 2 cfg.maxPositionSizeUSD
              (Except.error e, logRiskEvent st1 (some sig.strategyId) "POSITION_SIZE" e "Trade rejected")
            else if sig.stopLossPrice = 0 then
              let e := "stop-loss price is required"
              (Except.error e, logRiskEvent st1 (some sig.strategyId) "STOP_LOSS_MISSING" e "Trade rejected")
            else
              let entryPrice := sig.indicatorsPrice
              let slPercent := |entryPrice - sig.stopLossPrice| / entryPrice * 100
              if slPercent > cfg.stopLossPercent * 2 then
                let e := "stop-loss " ++ fmtFixed 2 slPercent ++
                  "% is too wide (max " ++ fmtFixed 2 (cfg.stopLossPercent * 2) ++ "%)"
                (Except.error e, logRiskEvent st1 (some sig.strategyId) "STOP_LOSS_TOO_WIDE" e "Trade rejected")
              else (Except.ok (), st1)

/-- oppositeOrderSide: SELL closes a LONG, BUY closes anything else. -/
def oppositeOrderSide (tradeSide : String) : String :=
  if tradeSide = "LONG" then "SELL" else "BUY"

/-- The close signal CheckOpenTrades publishes for an overdue trade.  The Go
struct literal sets only ID/StrategyID/Symbol/Side/Type/Quantity, so the
stop-loss price, reason and indicators are zero values.  `ids i` is the
`uuid.New()` drawn for the i-th overdue trade. -/
def mkCloseSignal (ids : Nat → String) (i : Nat) (t : Trade) : TradeSignalEvent :=
  { id := ids i, strategyId := t.strategyId, symbol := t.symbol,
    side := oppositeOrderSide t.side, otype := "MARKET", quantity := t.quantity,
    price := none, stopLossPrice := 0, reason := "",
    indicatorsPrice := 0, indicatorsSma := 0, indicatorsRsi := 0,
    indicatorsUpperBB := 0, indicatorsLowerBB := 0 }

/-- The open trades (`exit_time IS NULL`) held longer than
`max_hold_hours`. -/
def overdueTrades (cfg : RiskConfig) (now : Nat) (st : SysState) : List Trade :=
  (st.trades.filter (fun t => decide (t.exitTime = none))).filter
    (fun t => decide (now - t.entryTime > cfg.maxHoldTimeHours * 3600))

/-- The CheckOpenTrades loop body over the overdue trades: publish the
close signal, then log a MAX_HOLD_TIME risk event. -/
def processOverdue (now : Nat) (ids : Nat → String) :
    Nat → List Trade → SysState → SysState
  | _, [], st => st
  | i, t :: rest, st =>
      let st1 := { st with published := st.published ++ [PubEvent.signal (mkCloseSignal ids i t)] }
      let st2 := logRiskEvent st1 (some t.strategyId) "MAX_HOLD_TIME"
        ("Trade held for " ++ fmtDuration (now - t.entryTime)) "Closing trade"
      processOverdue now ids (i + 1) rest st2

/-- CheckOpenTrades: scan open trades and close out the overdue ones. -/
def checkOpenTrades (cfg : RiskConfig) (now : Nat) (ids : Nat → String)
    (st : SysState) : SysState :=
  processOverdue now ids 0 (overdueTrades cfg now st) st

/-- The operations that touch the risk manager within one process
lifetime. -/
inductive RiskOp where
  | validateOp (now : Nat) (sig : TradeSignal)
  | enableOp (now : Nat) (reason : String)
  | disableOp (now : Nat)
  | checkTradesOp (now : Nat) (ids : Nat → String)

def RiskOp.isDisable : RiskOp → Bool
  | .disableOp _ => true
  | _ => false

def riskStep (cfg : RiskConfig) (st : SysState) : RiskOp → SysState
  | .validateOp now sig => (validateTradeSignal cfg now st sig).2
  | .enableOp now reason => enableKillSwitch now reason st
  | .disableOp now => disableKillSwitch now st
  | .checkTradesOp now ids => checkOpenTrades cfg now ids st

def runRiskOps (cfg : RiskConfig) (st : SysState) (ops : List RiskOp) : SysState :=
  ops.foldl (riskStep cfg) st

/-! ## Order manager (internal/order) -/

/-- The deterministic fmt.Sprintf input of generateClientOrderID:
`"%s-%s-%s-%f-%d"` over strategy id, symbol, side, quantity, and
`Indicators["price"]`.  The `%f` verb is six fixed decimals; the `%d` verb
applied to a float64 yields the Go error form with the value inside. -/
def signalKey (sig : TradeSignalEvent) : String :=
  sig.strategyId ++ "-" ++ sig.symbol ++ "-" ++ sig.side ++ "-" ++
    fmtFixed 6 sig.quantity ++ "-" ++
    "%!d(float64=" ++ fmtValue sig.indicatorsPrice ++ ")"

/-- generateClientOrderID: hex of the first 16 bytes of the SHA-256 of the
signal key. -/
def generateClientOrderID (sig : TradeSignalEvent) : String :=
  String.mk (hexChars ((sha256 (utf8Bytes (signalKey sig))).take 16))

/-- The client order id exactly as the specification words it:
the first 32 characters of the full hex digest. -/
def specClientOrderID (sig : TradeSignalEvent) : String :=
  String.mk ((hexChars (sha256 (utf8Bytes (signalKey sig)))).take 32)

structure PlaceResult where
  ok : Bool
  inserted : Bool
  dispatched : Bool
deriving DecidableEq

/-- PlaceOrder: the idempotent create.  A row with this client order id
short-circuits to success; otherwise the order is inserted PENDING against
the first active exchange and dispatched asynchronously (`dispatched`
counts the resulting single `Exchange.PlaceOrder` call).  Strategy ids are
plain valid UUID strings, so `uuid.Parse` cannot fail in the model. -/
def placeOrder (st : SysState) (sig : TradeSignalEvent) : PlaceResult × SysState :=
  let cid := generateClientOrderID sig
  if st.orders.any (fun o => o.clientOrderId == cid) then
    ({ ok := true, inserted := false, dispatched := false }, st)
  else
    match st.exchangesTable.find? (fun e => e.isActive) with
    | none => ({ ok := false, inserted := false, dispatched := false }, st)
    | some _ =>
        let o : Order :=
          { oid := st.nextId, clientOrderId := cid, strategyId := sig.strategyId,
            symbol := sig.symbol, side := sig.side, otype := sig.otype,
            quantity := sig.quantity, price := sig.price,
            stopLossPrice := if sig.stopLossPrice > 0 then some sig.stopLossPrice else none,
            status := "PENDING", filledQuantity := 0, averageFillPrice := 0, fees := 0 }
        ({ ok := true, inserted := true, dispatched := true },
         { st with orders := st.orders ++ [o], nextId := st.nextId + 1,
                   exchangeCalls := st.exchangeCalls + 1 })

/-- The open trades for `(strategy, symbol)` that the closeTrade query
ranges over (`exit_time IS NULL`). -/
def openTradeCandidates (trades : List Trade) (strategyId symbol : String) : List Trade :=
  trades.filter (fun t =>
    decide (t.strategyId = strategyId ∧ t.symbol = symbol ∧ t.exitTime = none))

/-- Keep the later-entered of two candidates (`ORDER BY entry_time DESC
LIMIT 1`; among equal entry times the earlier row is kept). -/
def pickNewer (acc : Option Trade) (t : Trade) : Option Trade :=
  match acc with
  | none => some t
  | some b => if t.entryTime > b.entryTime then some t else some b

/-- The most recent open trade for `(strategy, symbol)`. -/
def mostRecentOpenTrade (trades : List Trade) (strategyId symbol : String) : Option Trade :=
  (openTradeCandidates trades strategyId symbol).foldl pickNewer none

/-- The fee `COALESCE(o.fees, 0)` of the trade entry order (LEFT JOIN). -/
def entryFeesOf (st : SysState) (t : Trade) : ℚ :=
  ((st.orders.find? (fun o => o.oid == t.entryOrderId)).map (fun o => o.fees)).getD 0

/-- closeTrade: select the most recent open trade, compute fees and P&L
(side-dependent), and update the row with exit data and
an exit reason of SIGNAL; publish `trade.closed`. -/
def closeTrade (now : Nat) (st : SysState) (exitOrderId : Nat)
    (strategyId symbol : String) (exitPrice exitFees : ℚ) : SysState :=
  match mostRecentOpenTrade st.trades strategyId symbol with
  | none => st
  | some t =>
      let totalFees := entryFeesOf st t + exitFees
      let pnl := if t.side = "LONG"
        then (exitPrice - t.entryPrice) * t.quantity - totalFees
        else (t.entryPrice - exitPrice) * t.quantity - totalFees
      let pnlPercent := pnl / (t.entryPrice * t.quantity) * 100
      { st with
        trades := st.trades.map (fun (u : Trade) => if u.tid = t.tid then
          { u with exitOrderId := some exitOrderId, exitPrice := some exitPrice,
                   exitTime := some now, pnl := some pnl, pnlPercent := some pnlPercent,
                   feesTotal := some totalFees, holdDuration := some (now - t.entryTime),
                   exitReason := some "SIGNAL" } else u),
        published := st.published ++ [PubEvent.tradeClosedEv t.tid pnl pnlPercent "SIGNAL"] }

/-- createTrade: insert a LONG trade row for a filled BUY and publish
`trade.opened`. -/
def createTrade (now : Nat) (st : SysState) (orderId : Nat)
    (strategyId symbol : String) (entryPrice quantity : ℚ) (side : String) : SysState :=
  let t : Trade :=
    { tid := st.nextId, entryOrderId := orderId,
      exitOrderId := none, strategyId := strategyId, symbol := symbol, side := side,
      entryPrice := entryPrice, quantity := quantity, entryTime := now,
      exitTime := none, exitPrice := none, pnl := none, pnlPercent := none,
      feesTotal := none, holdDuration := none, exitReason := none }
  { st with
    trades := st.trades ++ [t],
    nextId := st.nextId + 1,
    published := st.published ++ [PubEvent.tradeOpenedEv st.nextId side entryPrice quantity] }

/-- handleFilledOrder: a filled BUY opens a LONG trade; any other side
closes the most recent open trade; then `order.filled` is published. -/
def handleFilledOrder (now : Nat) (st : SysState) (orderId : Nat) : SysState :=
  match st.orders.find? (fun o => o.oid == orderId) with
  | none => st
  | some o =>
      let st1 :=
        if o.side = "BUY" then
          createTrade now st orderId o.strategyId o.symbol o.averageFillPrice o.quantity "LONG"
        else
          closeTrade now st orderId o.strategyId o.symbol o.averageFillPrice o.fees
      { st1 with published := st1.published ++ [PubEvent.orderFilledEv orderId] }

/-! ## Trading-bot signal consumer (cmd/trading-bot) -/

/-- The models.TradeSignal the queue handler builds from the bus event. -/
def toSignalModel (ev : TradeSignalEvent) : TradeSignal :=
  { strategyId := ev.strategyId, symbol := ev.symbol, side := ev.side,
    quantity := ev.quantity, stopLossPrice := ev.stopLossPrice,
    indicatorsPrice := ev.indicatorsPrice }

/-- The `strategy.signal` queue-group handler: validate with the risk
manager, drop the signal on rejection, otherwise place the order. -/
def handleTradeSignal (cfg : RiskConfig) (now : Nat) (st : SysState)
    (ev : TradeSignalEvent) : SysState :=
  match validateTradeSignal cfg now st (toSignalModel ev) with
  | (Except.error _, st1) => st1
  | (Except.ok _, st1) => (placeOrder st1 ev).2

/-! ## Market-data pipeline (internal/marketdata) -/

/-- A per-symbol in-memory candle buffer. -/
structure CandleBuffer where
  symbol : String
  openPrice : ℚ
  highPrice : ℚ
  lowPrice : ℚ
  closePrice : ℚ
  volume : ℚ
  startTime : Nat
deriving DecidableEq

/-- An exchange price tick. -/
structure PriceUpdate where
  exchange : String
  symbol : String
  price : ℚ
  volume : ℚ
  timestamp : Nat
deriving DecidableEq

/-- Market-data service state: the per-symbol buffer map, the `price_data`
table, and the `risk_events` table (for the gap-detection claims). -/
structure MDState where
  buffers : String → Option CandleBuffer
  priceData : List Candle
  riskEvents : List RiskEvent

/-- Go map assignment `candleBuffer[sym] = b`. -/
def setBuffer (bs : String → Option CandleBuffer) (sym : String)
    (b : CandleBuffer) : String → Option CandleBuffer :=
  fun s => if s = sym then some b else bs s

/-- The candle row a buffer persists to. -/
def candleOfBuffer (exchangeName : String) (b : CandleBuffer) : Candle :=
  { ctime := b.startTime, exchange := exchangeName, symbol := b.symbol,
    interval := "1m", openPrice := b.openPrice, highPrice := b.highPrice,
    lowPrice := b.lowPrice, closePrice := b.closePrice, volume := b.volume }

/-- Whether a row matches the `(time, exchange, symbol, interval)` key. -/
def sameCandleKey (c r : Candle) : Bool :=
  decide (r.ctime = c.ctime ∧ r.exchange = c.exchange ∧
          r.symbol = c.symbol ∧ r.interval = c.interval)

/-- The upsert `INSERT ... ON CONFLICT (time, exchange, symbol, interval) DO UPDATE`. -/
def upsertCandle (c : Candle) (table : List Candle) : List Candle :=
  if table.any (sameCandleKey c) then
    table.map (fun r => if sameCandleKey c r then c else r)
  else table ++ [c]

/-- saveCandle: upsert the buffer into `price_data`. -/
def saveCandle (exchangeName : String) (st : MDState) (b : CandleBuffer) : MDState :=
  { st with priceData := upsertCandle (candleOfBuffer exchangeName b) st.priceData }

/-- The fresh buffer opened for a new candle period. -/
def freshBuffer (u : PriceUpdate) (candleTime : Nat) : CandleBuffer :=
  { symbol := u.symbol, openPrice := u.price, highPrice := u.price,
    lowPrice := u.price, closePrice := u.price, volume := u.volume,
    startTime := candleTime }

/-- addToCandleBuffer: truncate the tick to its minute; on a new period
persist the previous buffer (if any) and open a fresh one, otherwise extend
the current buffer. -/
def addToCandleBuffer (exchangeName : String) (st : MDState) (u : PriceUpdate) : MDState :=
  let candleTime := u.timestamp - u.timestamp % 60
  match st.buffers u.symbol with
  | some b =>
      if b.startTime = candleTime then
        let b2 := { b with
          highPrice := if u.price > b.highPrice then u.price else b.highPrice,
          lowPrice := if u.price < b.lowPrice then u.price else b.lowPrice,
          closePrice := u.price, volume := b.volume + u.volume }
        { st with buffers := setBuffer st.buffers u.symbol b2 }
      else
        let st1 := saveCandle exchangeName st b
        { st1 with buffers := setBuffer st1.buffers u.symbol (freshBuffer u candleTime) }
  | none =>
      { st with buffers := setBuffer st.buffers u.symbol (freshBuffer u candleTime) }

/-- The query selecting MAX(time) from price_data for the symbol at interval 1m;
`none` when the symbol has no rows (the NULL that fails the Go scan and is
skipped with a logged error). -/
def latestCandleTime (st : MDState) (sym : String) : Option Nat :=
  ((st.priceData.filter (fun c => decide (c.symbol = sym ∧ c.interval = "1m"))).map
    (fun c => c.ctime)).max?

/-- detectGaps: per symbol, compute `now - max(time)` and warn when the gap
exceeds five minutes.  The returned string list is the set of warned
symbols (log lines); the state is returned as the code leaves it. -/
def detectGaps (now : Nat) (symbols : List String) (st : MDState) :
    List String × MDState :=
  (symbols.filter (fun sym =>
      match latestCandleTime st sym with
      | none => false
      | some t => decide ((now : ℤ) - t > 300)),
   st)

/-! ## Signal engine (internal/strategy) -/

/-- SMA over the last `period` entries; zero when the buffer is short. -/
def smaOf (prices : List ℚ) (period : Nat) : ℚ :=
  if prices.length < period then 0
  else ((prices.drop (prices.length - period)).foldl (· + ·) 0) / (period : ℚ)

/-- RSI over the last `period` intervals; a neutral 50 when the buffer is
short, 100 when there are no losses. -/
def rsiOf (prices : List ℚ) (period : Nat) : ℚ :=
  if prices.length < period + 1 then 50
  else
    let last := prices.drop (prices.length - (period + 1))
    let chs := (last.zip last.tail).map (fun p => p.2 - p.1)
    let gains := ((chs.filter (fun c => decide (c > 0))).foldl (· + ·) 0)
    let losses := ((chs.filter (fun c => decide (¬ c > 0))).map (fun c => |c|)).sum
    let avgGain := gains / (period : ℚ)
    let avgLoss := losses / (period : ℚ)
    if avgLoss = 0 then 100
    else
      let rs := avgGain / avgLoss
      100 - 100 / (1 + rs)

/-- Deterministic stand-in for the float64 `math.Sqrt` used inside the
Bollinger standard-deviation intermediate; the claims proved about the
engine are insensitive to the numeric value of the square root. -/
def ratSqrt (q : ℚ) : ℚ := (Nat.sqrt q.num.toNat : ℚ) / (Nat.sqrt q.den : ℚ)

/-- Bollinger bands `(upper, middle, lower)` with population-style variance
over the last `period` prices. -/
def bollingerBands (prices : List ℚ) (period : Nat) (mult : ℚ) : ℚ × ℚ × ℚ :=
  if prices.length < period then (0, 0, 0)
  else
    let middle := smaOf prices period
    let recent := prices.drop (prices.length - period)
    let variance := (recent.foldl (fun a p => a + (p - middle) * (p - middle)) 0) / (period : ℚ)
    let sd := ratSqrt variance * mult
    (middle + sd, middle, middle - sd)

/-- Strategy parameters (hard-wired to 20/14/20/2.0/30/70 in the
constructor) together with the risk-config entries the engine reads. -/
structure StratParams where
  smaPeriod : Nat
  rsiPeriod : Nat
  bbPeriod : Nat
  bbStdDev : ℚ
  rsiOversold : ℚ
  rsiOverbought : ℚ
  maxPositionSizeUSD : ℚ
  stopLossPercent : ℚ
deriving DecidableEq

/-- generateLongSignal: quantity from the position-size budget, stop-loss
`stop_loss_percent` below entry, indicators snapshot attached. -/
def generateLongSignal (p : StratParams) (strategyId symbol newUuid : String)
    (currentPrice sma rsi lowerBB : ℚ) : TradeSignalEvent :=
  let quantity := p.maxPositionSizeUSD / currentPrice
  let stopLossPrice := currentPrice * (1 - p.stopLossPercent / 100)
  { id := newUuid, strategyId := strategyId, symbol := symbol, side := "BUY",
    otype := "MARKET", quantity := quantity, price := none,
    stopLossPrice := stopLossPrice,
    reason := "Mean reversion LONG: RSI=" ++ fmtFixed 2 rsi ++ " (< " ++
      fmtFixed 0 p.rsiOversold ++ "), Price=" ++ fmtFixed 2 currentPrice ++
      " < LowerBB=" ++ fmtFixed 2 lowerBB,
    indicatorsPrice := currentPrice, indicatorsSma := sma, indicatorsRsi := rsi,
    indicatorsUpperBB := 0, indicatorsLowerBB := lowerBB }

/-- generateExitSignal: close the open trade on its opposite side.  The Go
event literal sets no StopLossPrice, and its indicators map holds only the
current price. -/
def generateExitSignal (strategyId symbol newUuid : String) (tr : Trade)
    (currentPrice : ℚ) (reason : String) : TradeSignalEvent :=
  { id := newUuid, strategyId := strategyId, symbol := symbol,
    side := if tr.side = "LONG" then "SELL" else "BUY",
    otype := "MARKET", quantity := tr.quantity, price := none,
    stopLossPrice := 0, reason := reason,
    indicatorsPrice := currentPrice, indicatorsSma := 0, indicatorsRsi := 0,
    indicatorsUpperBB := 0, indicatorsLowerBB := 0 }

/-- OnPriceUpdate for the configured symbol: append the price to the
bounded history, compute indicators, and emit at most one signal.
`openTrade` is the open trade the database holds for this strategy (its presence is
`hasOpenPosition`; the SHORT branch only logs).  `newUuid` is the
`uuid.New()` drawn if a signal is created. -/
def onPriceUpdate (p : StratParams) (strategyId symbol : String)
    (hist : List ℚ) (maxHistorySize : Nat) (price : ℚ)
    (openTrade : Option Trade) (newUuid : String) :
    Option TradeSignalEvent × List ℚ :=
  let h1 := hist ++ [price]
  let h2 := if h1.length > maxHistorySize then h1.drop 1 else h1
  if h2.length < p.bbPeriod then (none, h2)
  else
    let sma := smaOf h2 p.smaPeriod
    let rsi := rsiOf h2 p.rsiPeriod
    let bands := bollingerBands h2 p.bbPeriod p.bbStdDev
    let currentPrice := (h2.getLast?).getD 0
    match openTrade with
    | none =>
        if rsi < p.rsiOversold ∧ currentPrice < bands.2.2 then
          (some (generateLongSignal p strategyId symbol newUuid currentPrice sma rsi bands.2.2), h2)
        else (none, h2)
    | some tr =>
        if currentPrice > sma then
          (some (generateExitSignal strategyId symbol newUuid tr currentPrice "Price crossed SMA"), h2)
        else (none, h2)

/-- The deterministic payload of a signal: everything but the generated
UUID. -/
structure SignalCore where
  strategyId : String
  symbol : String
  side : String
  otype : String
  quantity : ℚ
  stopLossPrice : ℚ
  reason : String
  indicatorsPrice : ℚ
  indicatorsSma : ℚ
  indicatorsRsi : ℚ
  indicatorsUpperBB : ℚ
  indicatorsLowerBB : ℚ
deriving DecidableEq

def sigCore (s : TradeSignalEvent) : SignalCore :=
  ⟨s.strategyId, s.symbol, s.side, s.otype, s.quantity, s.stopLossPrice,
   s.reason, s.indicatorsPrice, s.indicatorsSma, s.indicatorsRsi,
   s.indicatorsUpperBB, s.indicatorsLowerBB⟩

/-! ## C1: idempotent order creation and the client-order-id formula -/

/-- All the facts C1 asserts about a double placement of the same signal. -/
def C1Statement (st : SysState) (sig : TradeSignalEvent) : Prop :=
  generateClientOrderID sig = specClientOrderID sig ∧
  (placeOrder st sig).1.ok = true ∧
  (placeOrder (placeOrder st sig).2 sig).1 =
    { ok := true, inserted := false, dispatched := false } ∧
  (placeOrder (placeOrder st sig).2 sig).2 = (placeOrder st sig).2 ∧
  (placeOrder (placeOrder st sig).2 sig).2.orders.countP
    (fun o => o.clientOrderId == generateClientOrderID sig) = 1 ∧
  (placeOrder (placeOrder st sig).2 sig).2.exchangeCalls = st.exchangeCalls + 1

def demoState : SysState :=
  { orders := [], trades := [], balanceTotals := [10000], riskEvents := [],
    exchangesTable := [{ eid := "paper", isActive := true }],
    ksConfig := { enabled := false, reason := none, timestamp := none },
    ks := { enabled := false, reason := "", timestamp := 0 },
    published := [], exchangeCalls := 0, nextId := 1 }

def demoSignal : TradeSignalEvent :=
  { id := "sig-1", strategyId := "strategy-1", symbol := "BTC-USD", side := "BUY",
    otype := "MARKET", quantity := 1 / 430, price := none, stopLossPrice := 42140,
    reason := "entry", indicatorsPrice := 43000, indicatorsSma := 43500,
    indicatorsRsi := 28, indicatorsUpperBB := 0, indicatorsLowerBB := 43500 }

def demoTradeSignal : TradeSignal :=
  { strategyId := "strategy-1", symbol := "BTC-USD", side := "BUY",
    quantity := 1 / 430, stopLossPrice := 42140, indicatorsPrice := 43000 }

def demoRiskConfig : RiskConfig :=
  { maxPositionSizeUSD := 100, maxOpenPositions := 1,
    dailyLossLimitPercent := 2, stopLossPercent := 2, maxHoldTimeHours := 24 }

def demoOps : List RiskOp :=
  [RiskOp.validateOp 10 demoTradeSignal,
   RiskOp.checkTradesOp 20 (fun _ => "uuid-a"),
   RiskOp.enableOp 30 "again"]

/-! ## C3: the daily-loss gate (boundary corrected to non-strict) -/

def c3TradeAtLimit : Trade :=
  { tid := 1, entryOrderId := 1, exitOrderId := some 2, strategyId := "strategy-1",
    symbol := "BTC-USD", side := "LONG", entryPrice := 1000, quantity := 1,
    entryTime := 90000, exitTime := some 90500, exitPrice := some 800,
    pnl := some (-200), pnlPercent := some (-20), feesTotal := some 0,
    holdDuration := some 500, exitReason := some "SIGNAL" }

def c3StateAtLimit : SysState :=
  { demoState with trades := [c3TradeAtLimit] }

def c3FailTrade : Trade := { c3TradeAtLimit with pnl := some (-300) }

def c3FailState : SysState := { demoState with trades := [c3FailTrade] }

def c5Trade : Trade :=
  { tid := 7, entryOrderId := 3, exitOrderId := none, strategyId := "strategy-1",
    symbol := "BTC-USD", side := "LONG", entryPrice := 43000, quantity := 1,
    entryTime := 1000, exitTime := none, exitPrice := none, pnl := none,
    pnlPercent := none, feesTotal := none, holdDuration := none, exitReason := none }

def c5State : SysState := { demoState with trades := [c5Trade] }

def c6ExitEvent : TradeSignalEvent :=
  generateExitSignal "strategy-1" "BTC-USD" "uuid-x" c5Trade 44000 "Price crossed SMA"

def c7Buf : CandleBuffer :=
  { symbol := "BTC-USD", openPrice := 100, highPrice := 110, lowPrice := 100,
    closePrice := 110, volume := 5, startTime := 600 }

def c7State : MDState :=
  { buffers := fun s => if s = "BTC-USD" then some c7Buf else none,
    priceData := [], riskEvents := [] }

def c7Tick : PriceUpdate :=
  { exchange := "paper", symbol := "BTC-USD", price := 105, volume := 2,
    timestamp := 662 }

/-! ## C8: max-hold supervision -/

/-- The signals on the bus, in publish order. -/
def publishedSignals (l : List PubEvent) : List TradeSignalEvent :=
  l.filterMap (fun e => match e with
    | PubEvent.signal s => some s
    | _ => none)

/-- The close signals one supervision pass publishes for a list of overdue
trades, with the i-th drawn UUID. -/
def closeSignalsFrom (ids : Nat → String) : Nat → List Trade → List TradeSignalEvent
  | _, [] => []
  | i, t :: rest => mkCloseSignal ids i t :: closeSignalsFrom ids (i + 1) rest

/-- The risk-event rows one supervision pass records. -/
def maxHoldRiskRows (now : Nat) (l : List Trade) : List RiskEvent :=
  l.map (fun t =>
    { strategyId := some t.strategyId, eventType := "MAX_HOLD_TIME",
      description := "Trade held for " ++ fmtDuration (now - t.entryTime),
      actionTaken := "Closing trade" })

def c8Ids : Nat → String := fun i => "close-" ++ toString i

/-! ## C9: gap detection warns but persists nothing -/

def c9Candle : Candle :=
  { ctime := 0, exchange := "paper", symbol := "BTC-USD", interval := "1m",
    openPrice := 1, highPrice := 1, lowPrice := 1, closePrice := 1, volume := 1 }

def c9State : MDState :=
  { buffers := fun _ => none, priceData := [c9Candle], riskEvents := [] }

/-! ## Theorems -/

theorem sha256_length (msg : List Nat) : (sha256 msg).length = 32 := by
  simp [sha256, wordBytes]

/-! ## Helper lemmas -/

theorem hexChars_cons (b : Nat) (l : List Nat) :
    hexChars (b :: l) = hexDigit (b / 16) :: hexDigit (b % 16) :: hexChars l := by
  simp [hexChars, hexPair]

/-- Hex of a byte-list truncation is a truncation of the hex: each byte
contributes exactly two characters. -/
theorem hexChars_take (bs : List Nat) (n : Nat) :
    hexChars (bs.take n) = (hexChars bs).take (2 * n) := by
  induction bs generalizing n with
  | nil => simp [hexChars]
  | cons b bs ih =>
      cases n with
      | zero => simp [hexChars]
      | succ m =>
          have h2 : 2 * (m + 1) = (2 * m).succ.succ := by omega
          simp only [List.take_succ_cons, hexChars_cons, h2, List.take_succ_cons, ih]

/-- Claim C1: the client order id equals the first 32 hex characters of the
SHA-256 of the signal key, and placing the same signal twice from a state
with no such id yields exactly one order row, exactly one exchange
dispatch, and an effect-free successful second call. -/
theorem C1_idempotent_place (st : SysState) (sig : TradeSignalEvent)
    (hfresh : st.orders.countP (fun o => o.clientOrderId == generateClientOrderID sig) = 0)
    (hex : (st.exchangesTable.find? (fun e => e.isActive)).isSome = true) :
    C1Statement st sig := by
  have hid : generateClientOrderID sig = specClientOrderID sig := by
    have := hexChars_take (sha256 (utf8Bytes (signalKey sig))) 16
    simp only [generateClientOrderID, specClientOrderID, this]
  have hnone : st.orders.any (fun o => o.clientOrderId == generateClientOrderID sig) = false := by
    rw [List.any_eq_false]
    intro o ho
    have := List.countP_eq_zero.mp hfresh o ho
    simpa using this
  obtain ⟨e, he⟩ := Option.isSome_iff_exists.mp hex
  refine ⟨hid, ?_⟩
  simp only [placeOrder, hnone, Bool.false_eq_true, if_false, he]
  set o1 : Order :=
    { oid := st.nextId, clientOrderId := generateClientOrderID sig,
      strategyId := sig.strategyId, symbol := sig.symbol, side := sig.side,
      otype := sig.otype, quantity := sig.quantity, price := sig.price,
      stopLossPrice := if sig.stopLossPrice > 0 then some sig.stopLossPrice else none,
      status := "PENDING", filledQuantity := 0, averageFillPrice := 0, fees := 0 } with ho1
  have hdup : (st.orders ++ [o1]).any
      (fun o => o.clientOrderId == generateClientOrderID sig) = true := by
    simp [List.any_append, ho1]
  simp only [hdup, if_true]
  refine ⟨trivial, trivial, trivial, ?_, trivial⟩
  rw [List.countP_append]
  rw [hfresh]
  simp [ho1]

/-- Witness for C1 at a concrete fresh state and signal. -/
theorem C1_idempotent_place_witness :
    (demoState.orders.countP
        (fun o => o.clientOrderId == generateClientOrderID demoSignal) = 0) ∧
    ((demoState.exchangesTable.find? (fun e => e.isActive)).isSome = true) ∧
    C1Statement demoState demoSignal :=
  ⟨by decide, by decide,
   C1_idempotent_place demoState demoSignal (by decide) (by decide)⟩

/-! ## C2: the kill switch rejects every validation until disabled -/

theorem logRiskEvent_ks (st : SysState) (a : Option String) (b c d : String) :
    (logRiskEvent st a b c d).ks = st.ks := rfl

theorem enableKillSwitch_ks (now : Nat) (reason : String) (st : SysState) :
    (enableKillSwitch now reason st).ks = ⟨true, reason, now⟩ := rfl

theorem processOverdue_ks (now : Nat) (ids : Nat → String) (i : Nat)
    (l : List Trade) (st : SysState) :
    (processOverdue now ids i l st).ks = st.ks := by
  induction l generalizing i st with
  | nil => rfl
  | cons t rest ih => simpa [processOverdue, logRiskEvent] using ih (i + 1) _

theorem validateTradeSignal_of_enabled (cfg : RiskConfig) (now : Nat)
    (st : SysState) (sig : TradeSignal) (h : st.ks.enabled = true) :
    validateTradeSignal cfg now st sig = (Except.error "kill switch is enabled", st) := by
  simp [validateTradeSignal, h]

/-- No risk-manager operation other than DisableKillSwitch can clear the
enabled bit. -/
theorem riskStep_preserves_enabled (cfg : RiskConfig) (st : SysState) (op : RiskOp)
    (hop : op.isDisable = false) (h : st.ks.enabled = true) :
    (riskStep cfg st op).ks.enabled = true := by
  cases op with
  | validateOp now sig =>
      simp [riskStep, validateTradeSignal_of_enabled cfg now st sig h, h]
  | enableOp now reason => simp [riskStep, enableKillSwitch_ks]
  | disableOp now => simp [RiskOp.isDisable] at hop
  | checkTradesOp now ids =>
      simpa [riskStep, checkOpenTrades, processOverdue_ks] using h

theorem runRiskOps_preserves_enabled (cfg : RiskConfig) (ops : List RiskOp)
    (st : SysState) (hops : ∀ op ∈ ops, op.isDisable = false)
    (h : st.ks.enabled = true) :
    (runRiskOps cfg st ops).ks.enabled = true := by
  induction ops generalizing st with
  | nil => exact h
  | cons op rest ih =>
      exact ih _ (fun x hx => hops x (List.mem_cons_of_mem op hx))
        (riskStep_preserves_enabled cfg st op (hops op (List.mem_cons_self op rest)) h)

/-- Claim C2: after EnableKillSwitch, any sequence of risk-manager
operations that contains no DisableKillSwitch leaves the switch enabled,
and every ValidateTradeSignal call rejects with the kill-switch error. -/
theorem C2_kill_switch_rejects (cfg : RiskConfig) (st : SysState)
    (now : Nat) (reason : String) (ops : List RiskOp)
    (hops : ∀ op ∈ ops, op.isDisable = false) (now2 : Nat) (sig : TradeSignal) :
    (runRiskOps cfg (enableKillSwitch now reason st) ops).ks.enabled = true ∧
    (validateTradeSignal cfg now2
        (runRiskOps cfg (enableKillSwitch now reason st) ops) sig).1 =
      Except.error "kill switch is enabled" := by
  have hen : (runRiskOps cfg (enableKillSwitch now reason st) ops).ks.enabled = true :=
    runRiskOps_preserves_enabled cfg ops _ hops (by simp [enableKillSwitch_ks])
  exact ⟨hen, by simp [validateTradeSignal_of_enabled cfg now2 _ sig hen]⟩

/-- Witness for C2 at a concrete state and operation sequence. -/
theorem C2_kill_switch_rejects_witness :
    (∀ op ∈ demoOps, op.isDisable = false) ∧
    (validateTradeSignal demoRiskConfig 40
        (runRiskOps demoRiskConfig (enableKillSwitch 5 "manual stop" demoState) demoOps)
        demoTradeSignal).1 = Except.error "kill switch is enabled" :=
  ⟨by decide,
   (C2_kill_switch_rejects demoRiskConfig demoState 5 "manual stop" demoOps
      (by decide) 40 demoTradeSignal).2⟩

/-- Counterexample to C3 as stated: with portfolio 10000, limit 2 % (so the
loss limit is 200) and a daily P&L of exactly −200, the rule passes even
though the P&L is not strictly greater than −200. -/
theorem C3_daily_loss_counterexample :
    (checkDailyLossLimit demoRiskConfig 93600 c3StateAtLimit "strategy-1").1 =
      Except.ok () ∧
    ¬ (dailyPnl c3StateAtLimit "strategy-1" 93600 >
        -(portfolioValue c3StateAtLimit * demoRiskConfig.dailyLossLimitPercent / 100)) := by
  have hpnl : dailyPnl c3StateAtLimit "strategy-1" 93600 = -200 := by
    simp [dailyPnl, c3StateAtLimit, c3TradeAtLimit, demoState, startOfDay]
  have hpv : portfolioValue c3StateAtLimit = 10000 := by
    simp [portfolioValue, c3StateAtLimit, demoState]
  constructor
  · simp only [checkDailyLossLimit, hpnl, hpv, demoRiskConfig]
    norm_num
  · rw [hpnl, hpv]
    norm_num [demoRiskConfig]

theorem validateTradeSignal_daily_fail (cfg : RiskConfig) (now : Nat)
    (st : SysState) (sig : TradeSignal) (hks : st.ks.enabled = false)
    (hlt : dailyPnl st sig.strategyId now <
      -(portfolioValue st * cfg.dailyLossLimitPercent / 100)) :
    (validateTradeSignal cfg now st sig).1 = Except.error
      ("daily loss limit exceeded: " ++ fmtFixed 2 (dailyPnl st sig.strategyId now) ++
       " (limit: " ++ fmtFixed 2 (portfolioValue st * cfg.dailyLossLimitPercent / 100) ++ ")") ∧
    (validateTradeSignal cfg now st sig).2.ks.enabled = true ∧
    (validateTradeSignal cfg now st sig).2.ks.reason =
      "Daily loss limit exceeded: " ++ fmtFixed 2 (dailyPnl st sig.strategyId now) := by
  simp [validateTradeSignal, hks, checkDailyLossLimit, hlt, logRiskEvent_ks,
    enableKillSwitch_ks]

/-- Claim C3 (amended): the daily-loss rule passes exactly when the daily
P&L is greater than **or equal to** the negated loss limit; on failure the
validation rejects after auto-enabling the kill switch with the
daily-loss reason. -/
theorem C3_daily_loss_amended (cfg : RiskConfig) (now : Nat) (st : SysState)
    (sig : TradeSignal) :
    ((checkDailyLossLimit cfg now st sig.strategyId).1 = Except.ok () ↔
      dailyPnl st sig.strategyId now ≥
        -(portfolioValue st * cfg.dailyLossLimitPercent / 100)) ∧
    (st.ks.enabled = false →
      dailyPnl st sig.strategyId now <
        -(portfolioValue st * cfg.dailyLossLimitPercent / 100) →
      (validateTradeSignal cfg now st sig).1 = Except.error
        ("daily loss limit exceeded: " ++ fmtFixed 2 (dailyPnl st sig.strategyId now) ++
         " (limit: " ++ fmtFixed 2 (portfolioValue st * cfg.dailyLossLimitPercent / 100) ++ ")") ∧
      (validateTradeSignal cfg now st sig).2.ks.enabled = true ∧
      (validateTradeSignal cfg now st sig).2.ks.reason =
        "Daily loss limit exceeded: " ++ fmtFixed 2 (dailyPnl st sig.strategyId now)) := by
  constructor
  · by_cases hlt : dailyPnl st sig.strategyId now <
        -(portfolioValue st * cfg.dailyLossLimitPercent / 100)
    · simp only [checkDailyLossLimit, if_pos hlt]
      constructor
      · intro h
        exact absurd h (by simp)
      · intro h
        exact absurd hlt (not_lt.mpr h)
    · simp only [checkDailyLossLimit, if_neg hlt]
      exact ⟨fun _ => not_lt.mp hlt, fun _ => trivial⟩
  · intro hks hlt
    exact validateTradeSignal_daily_fail cfg now st sig hks hlt

/-- Witness for C3 (amended) at a concrete breaching state. -/
theorem C3_daily_loss_amended_witness :
    (c3FailState.ks.enabled = false) ∧
    (dailyPnl c3FailState demoTradeSignal.strategyId 93600 <
      -(portfolioValue c3FailState * demoRiskConfig.dailyLossLimitPercent / 100)) ∧
    ((validateTradeSignal demoRiskConfig 93600 c3FailState demoTradeSignal).1 =
        Except.error
          ("daily loss limit exceeded: " ++
            fmtFixed 2 (dailyPnl c3FailState demoTradeSignal.strategyId 93600) ++
           " (limit: " ++
            fmtFixed 2 (portfolioValue c3FailState * demoRiskConfig.dailyLossLimitPercent / 100) ++
           ")") ∧
      (validateTradeSignal demoRiskConfig 93600 c3FailState demoTradeSignal).2.ks.enabled = true ∧
      (validateTradeSignal demoRiskConfig 93600 c3FailState demoTradeSignal).2.ks.reason =
        "Daily loss limit exceeded: " ++
          fmtFixed 2 (dailyPnl c3FailState demoTradeSignal.strategyId 93600)) := by
  have h1 : c3FailState.ks.enabled = false := rfl
  have hpnl : dailyPnl c3FailState demoTradeSignal.strategyId 93600 = -300 := by
    simp [dailyPnl, c3FailState, c3FailTrade, c3TradeAtLimit, demoState,
      demoTradeSignal, startOfDay]
  have hpv : portfolioValue c3FailState = 10000 := by
    simp [portfolioValue, c3FailState, demoState]
  have h2 : dailyPnl c3FailState demoTradeSignal.strategyId 93600 <
      -(portfolioValue c3FailState * demoRiskConfig.dailyLossLimitPercent / 100) := by
    rw [hpnl, hpv]
    norm_num [demoRiskConfig]
  exact ⟨h1, h2,
    (C3_daily_loss_amended demoRiskConfig 93600 c3FailState demoTradeSignal).2 h1 h2⟩

/-! ## C4: cancellation on enable; disable leaves orders alone -/

/-- Claim C4: after EnableKillSwitch no order is PENDING or OPEN (the one
UPDATE maps them all to CANCELLED), and DisableKillSwitch leaves the orders
table untouched and is idempotent on the switch state and the store. -/
theorem C4_kill_switch_orders (now now2 : Nat) (reason : String) (st : SysState) :
    ((enableKillSwitch now reason st).orders.countP
        (fun o => o.status == "PENDING" || o.status == "OPEN") = 0) ∧
    (disableKillSwitch now st).orders = st.orders ∧
    (disableKillSwitch now st).trades = st.trades ∧
    (disableKillSwitch now2 (disableKillSwitch now st)).orders =
      (disableKillSwitch now st).orders ∧
    (disableKillSwitch now2 (disableKillSwitch now st)).ks =
      (disableKillSwitch now st).ks := by
  refine ⟨?_, rfl, rfl, rfl, rfl⟩
  rw [List.countP_eq_zero]
  intro o ho
  have hmem : o ∈ st.orders.map (fun (x : Order) =>
      if x.status = "PENDING" ∨ x.status = "OPEN" then { x with status := "CANCELLED" } else x) := by
    simpa [enableKillSwitch, logRiskEvent] using ho
  rw [List.mem_map] at hmem
  obtain ⟨x, _, rfl⟩ := hmem
  by_cases hp : x.status = "PENDING" ∨ x.status = "OPEN"
  · simp [hp]
  · push_neg at hp
    simp [hp.1, hp.2]

/-! ## C5: closing a trade and the P&L formulas -/

/-- The fold that models `ORDER BY entry_time DESC LIMIT 1` returns an
element of its inputs bearing the maximal entry time. -/
theorem foldl_pickNewer_facts (l : List Trade) (acc : Option Trade) (t : Trade)
    (h : l.foldl pickNewer acc = some t) :
    (acc = some t ∨ t ∈ l) ∧
    (∀ u ∈ l, u.entryTime ≤ t.entryTime) ∧
    (∀ b, acc = some b → b.entryTime ≤ t.entryTime) := by
  induction l generalizing acc with
  | nil =>
      rw [List.foldl_nil] at h
      refine ⟨Or.inl h, by simp, fun b hb => ?_⟩
      rw [h] at hb
      injection hb with hb
      rw [hb]
  | cons x xs ih =>
      rw [List.foldl_cons] at h
      obtain ⟨hmem, hmax, hacc⟩ := ih (pickNewer acc x) h
      cases acc with
      | none =>
          have hx : x.entryTime ≤ t.entryTime := hacc x rfl
          refine ⟨Or.inr ?_, ?_, by simp⟩
          · rcases hmem with h1 | h1
            · injection h1 with h1
              rw [← h1]
              exact List.mem_cons_self x xs
            · exact List.mem_cons_of_mem x h1
          · intro u hu
            rcases List.mem_cons.mp hu with rfl | hu
            · exact hx
            · exact hmax u hu
      | some b =>
          by_cases hgt : x.entryTime > b.entryTime
          · have harg : pickNewer (some b) x = some x := by simp [pickNewer, hgt]
            rw [harg] at hmem hacc
            have hx : x.entryTime ≤ t.entryTime := hacc x rfl
            refine ⟨Or.inr ?_, ?_, ?_⟩
            · rcases hmem with h1 | h1
              · injection h1 with h1
                rw [← h1]
                exact List.mem_cons_self x xs
              · exact List.mem_cons_of_mem x h1
            · intro u hu
              rcases List.mem_cons.mp hu with rfl | hu
              · exact hx
              · exact hmax u hu
            · intro b2 hb2
              injection hb2 with hb2
              rw [← hb2]
              exact le_trans (le_of_lt hgt) hx
          · have harg : pickNewer (some b) x = some b := by simp [pickNewer, hgt]
            rw [harg] at hmem hacc
            have hb : b.entryTime ≤ t.entryTime := hacc b rfl
            refine ⟨?_, ?_, ?_⟩
            · rcases hmem with h1 | h1
              · exact Or.inl h1
              · exact Or.inr (List.mem_cons_of_mem x h1)
            · intro u hu
              rcases List.mem_cons.mp hu with rfl | hu
              · exact le_trans (not_lt.mp hgt) hb
              · exact hmax u hu
            · intro b2 hb2
              injection hb2 with hb2
              rw [← hb2]
              exact hb

/-- Claim C5: closeTrade selects the most recent open trade for
`(strategy, symbol)`, stores `total_fees = entry_fees + exit_fees`, the
side-dependent P&L, the P&L percentage, and `exit_reason = "SIGNAL"`; and a
LONG round trip with zero fees and `exit_price = entry_price` stores pnl
exactly 0. -/
theorem C5_close_trade (now : Nat) (st : SysState) (exitOrderId : Nat)
    (strategyId symbol : String) (exitPrice exitFees : ℚ) (t : Trade)
    (h : mostRecentOpenTrade st.trades strategyId symbol = some t) :
    (t ∈ st.trades ∧ t.strategyId = strategyId ∧ t.symbol = symbol ∧ t.exitTime = none ∧
      (∀ u ∈ st.trades, u.strategyId = strategyId → u.symbol = symbol →
        u.exitTime = none → u.entryTime ≤ t.entryTime)) ∧
    (∃ t2 ∈ (closeTrade now st exitOrderId strategyId symbol exitPrice exitFees).trades,
      t2.tid = t.tid ∧
      t2.feesTotal = some (entryFeesOf st t + exitFees) ∧
      (t.side = "LONG" →
        t2.pnl = some ((exitPrice - t.entryPrice) * t.quantity - (entryFeesOf st t + exitFees)) ∧
        t2.pnlPercent = some (((exitPrice - t.entryPrice) * t.quantity -
          (entryFeesOf st t + exitFees)) / (t.entryPrice * t.quantity) * 100)) ∧
      (t.side ≠ "LONG" →
        t2.pnl = some ((t.entryPrice - exitPrice) * t.quantity - (entryFeesOf st t + exitFees))) ∧
      t2.exitPrice = some exitPrice ∧ t2.exitTime = some now ∧
      t2.exitOrderId = some exitOrderId ∧ t2.holdDuration = some (now - t.entryTime) ∧
      t2.exitReason = some "SIGNAL") ∧
    (t.side = "LONG" → entryFeesOf st t = 0 → exitFees = 0 → exitPrice = t.entryPrice →
      ∃ t2 ∈ (closeTrade now st exitOrderId strategyId symbol exitPrice exitFees).trades,
        t2.tid = t.tid ∧ t2.pnl = some 0) := by
  have hsel := foldl_pickNewer_facts (openTradeCandidates st.trades strategyId symbol)
    none t (by simpa [mostRecentOpenTrade] using h)
  have hmem : t ∈ openTradeCandidates st.trades strategyId symbol := by
    rcases hsel.1 with h1 | h1
    · exact absurd h1 (by simp)
    · exact h1
  have hprops : t ∈ st.trades ∧ t.strategyId = strategyId ∧ t.symbol = symbol ∧
      t.exitTime = none := by
    simpa [openTradeCandidates, List.mem_filter, decide_eq_true_eq, and_assoc] using hmem
  have hsel2 : ∀ u ∈ st.trades, u.strategyId = strategyId → u.symbol = symbol →
      u.exitTime = none → u.entryTime ≤ t.entryTime := by
    intro u hu h1 h2 h3
    exact hsel.2.1 u (by simp [openTradeCandidates, List.mem_filter,
      decide_eq_true_eq, hu, h1, h2, h3])
  refine ⟨⟨hprops.1, hprops.2.1, hprops.2.2.1, hprops.2.2.2, hsel2⟩, ?_, ?_⟩
  · simp only [closeTrade, h]
    refine ⟨_, List.mem_map_of_mem _ hprops.1, ?_⟩
    simp only [if_pos rfl]
    refine ⟨rfl, rfl, ?_, ?_, rfl, rfl, rfl, rfl, rfl⟩
    · intro hside
      rw [if_pos hside]
      exact ⟨rfl, rfl⟩
    · intro hside
      simp [if_neg hside]
  · intro hside hef hxf hxp
    simp only [closeTrade, h]
    refine ⟨_, List.mem_map_of_mem _ hprops.1, ?_⟩
    simp only [if_pos rfl]
    refine ⟨rfl, ?_⟩
    rw [if_pos hside, hef, hxf, hxp]
    norm_num

/-- Witness for C5: a LONG round trip with zero fees at the entry price
stores an exactly-zero P&L. -/
theorem C5_close_trade_witness :
    (mostRecentOpenTrade c5State.trades "strategy-1" "BTC-USD" = some c5Trade) ∧
    (∃ t2 ∈ (closeTrade 2000 c5State 9 "strategy-1" "BTC-USD" 43000 0).trades,
      t2.tid = c5Trade.tid ∧ t2.pnl = some 0) := by
  have h : mostRecentOpenTrade c5State.trades "strategy-1" "BTC-USD" = some c5Trade := rfl
  exact ⟨h, (C5_close_trade 2000 c5State 9 "strategy-1" "BTC-USD" 43000 0 c5Trade h).2.2
    rfl rfl rfl rfl⟩

/-! ## C6: exit signals carry no stop loss and never reach PlaceOrder -/

theorem enableKillSwitch_orders_length (now : Nat) (reason : String) (st : SysState) :
    (enableKillSwitch now reason st).orders.length = st.orders.length := by
  simp [enableKillSwitch, logRiskEvent]

/-- Validation never inserts an order row and never contacts the
exchange, on any of its branches. -/
theorem validateTradeSignal_frame (cfg : RiskConfig) (now : Nat) (st : SysState)
    (sig : TradeSignal) :
    (validateTradeSignal cfg now st sig).2.orders.length = st.orders.length ∧
    (validateTradeSignal cfg now st sig).2.exchangeCalls = st.exchangeCalls := by
  by_cases h1 : st.ks.enabled = true
  · simp [validateTradeSignal, h1]
  · by_cases h2 : dailyPnl st sig.strategyId now <
        -(portfolioValue st * cfg.dailyLossLimitPercent / 100)
    · simp [validateTradeSignal, h1, checkDailyLossLimit, h2, logRiskEvent, enableKillSwitch]
    · by_cases h3 : openPositions st sig.strategyId ≥ cfg.maxOpenPositions
      · simp [validateTradeSignal, h1, checkDailyLossLimit, h2, checkMaxOpenPositions, h3,
          logRiskEvent]
      · simp only [validateTradeSignal, h1, checkDailyLossLimit, if_neg h2,
          checkMaxOpenPositions, if_neg h3, Bool.false_eq_true, if_false]
        split_ifs <;> simp [logRiskEvent]

/-- A signal with a zero stop-loss price is rejected on every branch of
the risk validation. -/
theorem validateTradeSignal_zero_stop (cfg : RiskConfig) (now : Nat) (st : SysState)
    (sig : TradeSignal) (hz : sig.stopLossPrice = 0) :
    ∃ e, (validateTradeSignal cfg now st sig).1 = Except.error e := by
  by_cases h1 : st.ks.enabled = true
  · exact ⟨"kill switch is enabled", by simp [validateTradeSignal, h1]⟩
  · by_cases h2 : dailyPnl st sig.strategyId now <
        -(portfolioValue st * cfg.dailyLossLimitPercent / 100)
    · refine ⟨"daily loss limit exceeded: " ++ fmtFixed 2 (dailyPnl st sig.strategyId now) ++
        " (limit: " ++ fmtFixed 2 (portfolioValue st * cfg.dailyLossLimitPercent / 100) ++ ")", ?_⟩
      simp [validateTradeSignal, h1, checkDailyLossLimit, h2]
    · by_cases h3 : openPositions st sig.strategyId ≥ cfg.maxOpenPositions
      · refine ⟨"max open positions reached: " ++ toString (openPositions st sig.strategyId) ++
          " (limit: " ++ toString cfg.maxOpenPositions ++ ")", ?_⟩
        simp [validateTradeSignal, h1, checkDailyLossLimit, h2, checkMaxOpenPositions, h3]
      · by_cases h4 : sig.quantity * sig.indicatorsPrice > cfg.maxPositionSizeUSD
        · refine ⟨"position size " ++ fmtFixed 2 (sig.quantity * sig.indicatorsPrice) ++
            " exceeds limit " ++ fmtFixed 2 cfg.maxPositionSizeUSD, ?_⟩
          simp [validateTradeSignal, h1, checkDailyLossLimit, h2, checkMaxOpenPositions, h3, h4]
        · refine ⟨"stop-loss price is required", ?_⟩
          simp [validateTradeSignal, h1, checkDailyLossLimit, h2, checkMaxOpenPositions, h3,
            h4, hz]

/-- A zero-stop-loss bus signal is dropped by the queue handler before
PlaceOrder: no order row appears and the exchange is not called. -/
theorem handleTradeSignal_zero_stop (cfg : RiskConfig) (now : Nat) (st : SysState)
    (ev : TradeSignalEvent) (hz : ev.stopLossPrice = 0) :
    (handleTradeSignal cfg now st ev).orders.length = st.orders.length ∧
    (handleTradeSignal cfg now st ev).exchangeCalls = st.exchangeCalls := by
  obtain ⟨e, he⟩ := validateTradeSignal_zero_stop cfg now st (toSignalModel ev)
    (by simpa [toSignalModel] using hz)
  have hframe := validateTradeSignal_frame cfg now st (toSignalModel ev)
  unfold handleTradeSignal
  rcases hv : validateTradeSignal cfg now st (toSignalModel ev) with ⟨fst, snd⟩
  rw [hv] at he hframe
  simp only at he
  subst he
  simpa using hframe

/-- Claim C6: both exit-signal producers omit the stop-loss price, the risk
gate rejects every zero-stop-loss signal, and the queue handler therefore
drops every such signal before PlaceOrder. -/
theorem C6_exit_signals_rejected (cfg : RiskConfig) (now : Nat) (st : SysState) :
    (∀ strategyId symbol newUuid tr currentPrice reason,
      (generateExitSignal strategyId symbol newUuid tr currentPrice reason).stopLossPrice = 0) ∧
    (∀ ids i t, (mkCloseSignal ids i t).stopLossPrice = 0) ∧
    (∀ sig : TradeSignal, sig.stopLossPrice = 0 →
      ∃ e, (validateTradeSignal cfg now st sig).1 = Except.error e) ∧
    (∀ ev : TradeSignalEvent, ev.stopLossPrice = 0 →
      (handleTradeSignal cfg now st ev).orders.length = st.orders.length ∧
      (handleTradeSignal cfg now st ev).exchangeCalls = st.exchangeCalls) :=
  ⟨fun _ _ _ _ _ _ => rfl, fun _ _ _ => rfl,
   fun sig hz => validateTradeSignal_zero_stop cfg now st sig hz,
   fun ev hz => handleTradeSignal_zero_stop cfg now st ev hz⟩

/-- Witness for C6 at a concrete exit signal and state. -/
theorem C6_exit_signals_rejected_witness :
    (c6ExitEvent.stopLossPrice = 0) ∧
    (∃ e, (validateTradeSignal demoRiskConfig 50 demoState (toSignalModel c6ExitEvent)).1 =
      Except.error e) ∧
    (handleTradeSignal demoRiskConfig 50 demoState c6ExitEvent).orders.length =
      demoState.orders.length ∧
    (handleTradeSignal demoRiskConfig 50 demoState c6ExitEvent).exchangeCalls =
      demoState.exchangeCalls := by
  refine ⟨rfl, ?_, ?_, ?_⟩
  · exact (C6_exit_signals_rejected demoRiskConfig 50 demoState).2.2.1
      (toSignalModel c6ExitEvent) rfl
  · exact ((C6_exit_signals_rejected demoRiskConfig 50 demoState).2.2.2 c6ExitEvent rfl).1
  · exact ((C6_exit_signals_rejected demoRiskConfig 50 demoState).2.2.2 c6ExitEvent rfl).2

/-! ## C7: per-tick candle aggregation -/

theorem ite_gt_eq_max (a c : ℚ) : (if c > a then c else a) = max a c := by
  rcases le_or_lt c a with h | h
  · rw [if_neg (not_lt.mpr h), max_eq_left h]
  · rw [if_pos h, max_eq_right (le_of_lt h)]

theorem ite_lt_eq_min (a c : ℚ) : (if c < a then c else a) = min a c := by
  rcases le_or_lt a c with h | h
  · rw [if_neg (not_lt.mpr h), min_eq_left h]
  · rw [if_pos h, min_eq_right (le_of_lt h)]

theorem setBuffer_self (bs : String → Option CandleBuffer) (sym : String)
    (b : CandleBuffer) : setBuffer bs sym b sym = some b := by
  simp [setBuffer]

/-- Claim C7: a tick with no buffer, or with a buffer for a different
minute, opens a fresh buffer at the tick values (after upserting the old
buffer in the latter case, keyed on time, exchange, symbol and interval); a tick
in the minute of the buffer extends it with max/min/close/volume. -/
theorem C7_candle_aggregation (exchangeName : String) (st : MDState) (u : PriceUpdate) :
    (st.buffers u.symbol = none →
      (addToCandleBuffer exchangeName st u).buffers u.symbol =
        some (freshBuffer u (u.timestamp - u.timestamp % 60)) ∧
      (addToCandleBuffer exchangeName st u).priceData = st.priceData) ∧
    (∀ b, st.buffers u.symbol = some b →
      b.startTime ≠ u.timestamp - u.timestamp % 60 →
      (addToCandleBuffer exchangeName st u).buffers u.symbol =
        some (freshBuffer u (u.timestamp - u.timestamp % 60)) ∧
      (addToCandleBuffer exchangeName st u).priceData =
        upsertCandle (candleOfBuffer exchangeName b) st.priceData) ∧
    (∀ b, st.buffers u.symbol = some b →
      b.startTime = u.timestamp - u.timestamp % 60 →
      (addToCandleBuffer exchangeName st u).buffers u.symbol =
        some { b with highPrice := max b.highPrice u.price,
                      lowPrice := min b.lowPrice u.price,
                      closePrice := u.price, volume := b.volume + u.volume } ∧
      (addToCandleBuffer exchangeName st u).priceData = st.priceData) := by
  refine ⟨?_, ?_, ?_⟩
  · intro hb
    simp [addToCandleBuffer, hb, setBuffer_self]
  · intro b hb hne
    simp only [addToCandleBuffer, hb, if_neg hne, saveCandle]
    exact ⟨setBuffer_self _ _ _, trivial⟩
  · intro b hb heq
    simp only [addToCandleBuffer, hb, if_pos heq]
    refine ⟨?_, trivial⟩
    rw [setBuffer_self]
    rw [ite_gt_eq_max, ite_lt_eq_min]

/-- Witness for C7: a tick in the next minute persists the old buffer and
opens a fresh one. -/
theorem C7_candle_aggregation_witness :
    (c7State.buffers c7Tick.symbol = some c7Buf) ∧
    (c7Buf.startTime ≠ c7Tick.timestamp - c7Tick.timestamp % 60) ∧
    ((addToCandleBuffer "paper" c7State c7Tick).buffers c7Tick.symbol =
      some (freshBuffer c7Tick (c7Tick.timestamp - c7Tick.timestamp % 60)) ∧
     (addToCandleBuffer "paper" c7State c7Tick).priceData =
      upsertCandle (candleOfBuffer "paper" c7Buf) c7State.priceData) :=
  ⟨rfl, by decide,
   (C7_candle_aggregation "paper" c7State c7Tick).2.1 c7Buf rfl (by decide)⟩

theorem publishedSignals_append (l1 l2 : List PubEvent) :
    publishedSignals (l1 ++ l2) = publishedSignals l1 ++ publishedSignals l2 := by
  simp [publishedSignals]

theorem processOverdue_published (now : Nat) (ids : Nat → String) (i : Nat)
    (l : List Trade) (st : SysState) :
    publishedSignals (processOverdue now ids i l st).published =
      publishedSignals st.published ++ closeSignalsFrom ids i l := by
  induction l generalizing i st with
  | nil => simp [processOverdue, closeSignalsFrom]
  | cons t rest ih =>
      rw [processOverdue, ih]
      simp [logRiskEvent, publishedSignals_append, closeSignalsFrom, publishedSignals]

theorem processOverdue_riskEvents (now : Nat) (ids : Nat → String) (i : Nat)
    (l : List Trade) (st : SysState) :
    (processOverdue now ids i l st).riskEvents =
      st.riskEvents ++ maxHoldRiskRows now l := by
  induction l generalizing i st with
  | nil => simp [processOverdue, maxHoldRiskRows]
  | cons t rest ih =>
      rw [processOverdue, ih]
      simp [logRiskEvent, maxHoldRiskRows]

/-- Claim C8 (amended): one supervision pass publishes exactly one close
signal per overdue open trade — opposite side, MARKET, the trade
quantity, and an **empty** reason — and records one MAX_HOLD_TIME
risk-event row per overdue trade (the MAX_HOLD_TIME marker lives in the
risk event, not in the signal). -/
theorem C8_max_hold_supervision (cfg : RiskConfig) (now : Nat) (ids : Nat → String)
    (st : SysState) :
    publishedSignals (checkOpenTrades cfg now ids st).published =
      publishedSignals st.published ++ closeSignalsFrom ids 0 (overdueTrades cfg now st) ∧
    (checkOpenTrades cfg now ids st).riskEvents =
      st.riskEvents ++ maxHoldRiskRows now (overdueTrades cfg now st) ∧
    (∀ t ∈ overdueTrades cfg now st, t.exitTime = none ∧
      now - t.entryTime > cfg.maxHoldTimeHours * 3600) ∧
    (∀ i t, (mkCloseSignal ids i t).side = oppositeOrderSide t.side ∧
      (mkCloseSignal ids i t).otype = "MARKET" ∧
      (mkCloseSignal ids i t).quantity = t.quantity ∧
      (mkCloseSignal ids i t).reason = "") ∧
    (oppositeOrderSide "LONG" = "SELL") ∧
    (∀ s, s ≠ "LONG" → oppositeOrderSide s = "BUY") ∧
    (∀ r ∈ maxHoldRiskRows now (overdueTrades cfg now st), r.eventType = "MAX_HOLD_TIME") := by
  refine ⟨processOverdue_published now ids 0 _ st,
    processOverdue_riskEvents now ids 0 _ st, ?_, ?_, rfl, ?_, ?_⟩
  · intro t ht
    simp only [overdueTrades, List.mem_filter, decide_eq_true_eq] at ht
    exact ⟨ht.1.2, ht.2⟩
  · intro i t
    exact ⟨rfl, rfl, rfl, rfl⟩
  · intro s hs
    simp [oppositeOrderSide, hs]
  · intro r hr
    simp only [maxHoldRiskRows, List.mem_map] at hr
    obtain ⟨t, _, rfl⟩ := hr
    rfl

/-- Counterexample to C8 as stated: the single close signal published for
an overdue LONG trade has the opposite side, but its reason field is empty
rather than MAX_HOLD_TIME. -/
theorem C8_max_hold_counterexample :
    publishedSignals (checkOpenTrades demoRiskConfig 90000 c8Ids c5State).published =
      [mkCloseSignal c8Ids 0 c5Trade] ∧
    (mkCloseSignal c8Ids 0 c5Trade).side = "SELL" ∧
    (mkCloseSignal c8Ids 0 c5Trade).reason = "" ∧
    (mkCloseSignal c8Ids 0 c5Trade).reason ≠ "MAX_HOLD_TIME" := by
  refine ⟨rfl, rfl, rfl, by decide⟩

/-- Witness for C8 (amended) at a concrete overdue trade. -/
theorem C8_max_hold_supervision_witness :
    ((mkCloseSignal c8Ids 0 c5Trade).side = oppositeOrderSide c5Trade.side ∧
     (mkCloseSignal c8Ids 0 c5Trade).otype = "MARKET" ∧
     (mkCloseSignal c8Ids 0 c5Trade).quantity = c5Trade.quantity ∧
     (mkCloseSignal c8Ids 0 c5Trade).reason = "") ∧
    ("SHORT" ≠ "LONG") ∧ oppositeOrderSide "SHORT" = "BUY" ∧
    (checkOpenTrades demoRiskConfig 90000 c8Ids c5State).riskEvents =
      c5State.riskEvents ++ maxHoldRiskRows 90000 (overdueTrades demoRiskConfig 90000 c5State) :=
  ⟨(C8_max_hold_supervision demoRiskConfig 90000 c8Ids c5State).2.2.2.1 0 c5Trade,
   by decide,
   (C8_max_hold_supervision demoRiskConfig 90000 c8Ids c5State).2.2.2.2.2.1 "SHORT" (by decide),
   (C8_max_hold_supervision demoRiskConfig 90000 c8Ids c5State).2.1⟩

/-- Counterexample to C9 as stated: with the last candle 1000 seconds old
the gap is detected (the symbol is warned), yet the risk-events table is
left exactly as it was — no warning-level risk event is persisted. -/
theorem C9_gap_counterexample :
    (detectGaps 1000 ["BTC-USD"] c9State).1 = ["BTC-USD"] ∧
    (detectGaps 1000 ["BTC-USD"] c9State).2.riskEvents = c9State.riskEvents := by
  constructor
  · rfl
  · rfl

/-- Claim C9 (amended): every 5 minutes the pipeline computes
`gap = now - max(time)` per symbol and emits a warning log line when the
gap exceeds 5 minutes; it writes nothing to the store (no risk event row,
backfill is a TODO). -/
theorem C9_gap_detection (now : Nat) (symbols : List String) (st : MDState) :
    (detectGaps now symbols st).2.riskEvents = st.riskEvents ∧
    (detectGaps now symbols st).2.priceData = st.priceData ∧
    (detectGaps now symbols st).1 = symbols.filter (fun sym =>
      match latestCandleTime st sym with
      | none => false
      | some t => decide ((now : ℤ) - t > 300)) :=
  ⟨rfl, rfl, rfl⟩

/-! ## C10: the signal engine is deterministic -/

/-- Claim C10: two OnPriceUpdate evaluations over identical buffers, the
same tick price, and the same open-trade view differ at most in the drawn
signal UUID: every other signal field and the updated buffer agree. -/
theorem C10_determinism (p : StratParams) (strategyId symbol : String)
    (hist : List ℚ) (maxHistorySize : Nat) (price : ℚ) (openTrade : Option Trade)
    (u1 u2 : String) :
    (onPriceUpdate p strategyId symbol hist maxHistorySize price openTrade u1).1.map sigCore =
      (onPriceUpdate p strategyId symbol hist maxHistorySize price openTrade u2).1.map sigCore ∧
    (onPriceUpdate p strategyId symbol hist maxHistorySize price openTrade u1).2 =
      (onPriceUpdate p strategyId symbol hist maxHistorySize price openTrade u2).2 := by
  cases openTrade with
  | none =>
      simp only [onPriceUpdate]
      split_ifs <;> simp [sigCore, generateLongSignal]
  | some tr =>
      simp only [onPriceUpdate]
      split_ifs <;> simp [sigCore, generateExitSignal]
